import Mathlib

/-!
Verification of the binance-data-fetcher repository.

The development shallowly embeds the two Python source files:

* `binance_data_fetcher/fetch_data.py` — the `BinanceDataFetcher` class with
  `__init__`, `fetch_and_save`, `fetch_all_data` and `run_continuous_fetch`;
* `start_binance_data_fetcher.py` — the interactive starter with
  `get_user_input` and the top-level exit-code handling.

Conventions of the embedding:

* Wall-clock instants and durations are rationals (seconds); the scheduler
  only ever receives values such as `2.5` or `60` that are exact in ℚ.
  Console input, by contrast, can produce any `float`, so the interactive
  parse path works over `PyFloat` — rationals extended with NaN and the
  infinities, compared as Python compares floats.
* The network and the file system are oracles packaged in a `FetchEnv`
  record; `requests.get`/`raise_for_status` outcomes collapse to a
  `NetResult` (success with a parsed JSON payload, or a request fault
  covering connectivity errors, timeouts and non-2xx statuses, all of which
  Python raises as `requests.exceptions.RequestException`).
* Effects (file writes, HTTP requests, console lines) are returned as
  explicit lists instead of being performed.
* `datetime.now()` is a `DateTime` record with microseconds; the
  `strftime("%Y%m%d_%H%M%S")` call is `fmtTimestamp`, which (like strftime)
  ignores the microsecond field.  Python's `datetime` guarantees
  `year ≤ 9999`, so the four-digit year rendering is exact on `ValidDT`.
-/

/-- Base URL of the API, `self.base_url` in `BinanceDataFetcher.__init__`. -/
def base_url : String := "https://api.binance.com"

/-- A wall-clock instant as returned by `datetime.now()`: calendar fields at
second resolution plus the microsecond field that `strftime("%Y%m%d_%H%M%S")`
discards. -/
structure DateTime where
  year : ℕ
  month : ℕ
  day : ℕ
  hour : ℕ
  minute : ℕ
  second : ℕ
  micro : ℕ
deriving DecidableEq

/-- Ranges that every value produced by Python's `datetime.now()` satisfies
(`datetime` caps the year at 9999). -/
def ValidDT (dt : DateTime) : Prop :=
  dt.year ≤ 9999 ∧ 1 ≤ dt.month ∧ dt.month ≤ 12 ∧ 1 ≤ dt.day ∧ dt.day ≤ 31 ∧
    dt.hour ≤ 23 ∧ dt.minute ≤ 59 ∧ dt.second ≤ 59 ∧ dt.micro ≤ 999999

/-- Decimal digit character for `n % 10`, the building block of the zero-padded
fields of `strftime`. -/
def digitChar10 (n : ℕ) : Char :=
  match n % 10 with
  | 0 => '0' | 1 => '1' | 2 => '2' | 3 => '3' | 4 => '4'
  | 5 => '5' | 6 => '6' | 7 => '7' | 8 => '8' | _ => '9'

/-- Two-digit zero-padded rendering (`%m`, `%d`, `%H`, `%M`, `%S`). -/
def pad2 (n : ℕ) : List Char := [digitChar10 (n / 10), digitChar10 n]

/-- Four-digit zero-padded rendering (`%Y`; exact for years below 10000,
which `datetime` guarantees). -/
def pad4 (n : ℕ) : List Char :=
  [digitChar10 (n / 1000), digitChar10 (n / 100), digitChar10 (n / 10), digitChar10 n]

/-- Character sequence produced by
`datetime.now().strftime("%Y%m%d_%H%M%S")` in `fetch_and_save`. -/
def fmtTimestamp (dt : DateTime) : List Char :=
  pad4 dt.year ++ pad2 dt.month ++ pad2 dt.day ++
    '_' :: (pad2 dt.hour ++ pad2 dt.minute ++ pad2 dt.second)

/-- The timestamp as a string, as interpolated into the filename. -/
def timestampStr (dt : DateTime) : String := String.mk (fmtTimestamp dt)

/-- The filename built in `fetch_and_save`:
`f"{filename_prefix}_{timestamp}.json"`. -/
def snapshotFilename (pre : String) (dt : DateTime) : String :=
  pre ++ "_" ++ timestampStr dt ++ ".json"

/-- Parsed JSON documents, the payloads returned by `response.json()`.
`json.dump` followed by re-parsing is the identity on this type, so a written
file is recorded by its parsed value. -/
inductive Json where
  | null : Json
  | bool (b : Bool) : Json
  | num (q : ℚ) : Json
  | str (s : String) : Json
  | arr (xs : List Json) : Json
  | obj (fields : List (String × Json)) : Json

/-- Outcome of `requests.get(...)` followed by `response.raise_for_status()`:
either a parsed payload, or a `requests.exceptions.RequestException`
(connectivity error, timeout, or non-2xx HTTP status). -/
inductive NetResult where
  | ok (payload : Json) : NetResult
  | netFault (msg : String) : NetResult

/-- The external world visible to one `fetch_and_save` call: the network
response per endpoint, the file-system outcome per path (`none` means the
write succeeds, `some msg` a raised OS error), and the current wall clock. -/
structure FetchEnv where
  http : String → NetResult
  writeErr : String → Option String
  now : DateTime

/-- Observable behaviour of one `fetch_and_save` call: the returned Python
value (`None` or the payload), the files written (path and parsed content),
the HTTP requests issued (method and URL), and the console lines printed. -/
structure FetchOutcome where
  result : Option Json
  writes : List (String × Json)
  requests : List (String × String)
  logs : List String

/-- Embedding of `BinanceDataFetcher.fetch_and_save(self, endpoint,
filename_prefix)`.  A request fault is caught by the
`except requests.exceptions.RequestException` arm, a write fault by the
`except Exception` arm; both log and return `None`.  `data_folder` is
`self.data_folder`. -/
def fetch_and_save (env : FetchEnv) (data_folder ep pre : String) : FetchOutcome :=
  let req := ("GET", base_url ++ ep)
  let fetching := "Fetching data from " ++ ep ++ "..."
  match env.http ep with
  | NetResult.netFault msg =>
      ⟨none, [], [req], [fetching, "✗ Error fetching " ++ ep ++ ": " ++ msg]⟩
  | NetResult.ok payload =>
      let filename := snapshotFilename pre env.now
      let filepath := data_folder ++ "/" ++ filename
      match env.writeErr filepath with
      | some msg => ⟨none, [], [req], [fetching, "✗ Error saving data: " ++ msg]⟩
      | none => ⟨some payload, [(filepath, payload)], [req],
          [fetching, "✓ Data saved to: " ++ filepath]⟩

/-- Embedding of `BinanceDataFetcher.fetch_all_data`: the six sequential
`fetch_and_save` calls in source order.  `envs i` is the state of the world
when the `i`-th call runs (the `time.sleep(0.1)` pacing between calls only
advances the clock and is absorbed into the successive environments). -/
def fetch_all_data (envs : ℕ → FetchEnv) (data_folder : String) : List FetchOutcome :=
  [ fetch_and_save (envs 0) data_folder "/api/v3/exchangeInfo" "exchange_info",
    fetch_and_save (envs 1) data_folder "/api/v3/ticker/24hr" "ticker_24hr_all",
    fetch_and_save (envs 2) data_folder "/api/v3/ticker/price" "ticker_price_all",
    fetch_and_save (envs 3) data_folder "/api/v3/depth?symbol=BTCUSDT&limit=100" "orderbook_BTCUSDT",
    fetch_and_save (envs 4) data_folder "/api/v3/trades?symbol=BTCUSDT&limit=100" "trades_BTCUSDT",
    fetch_and_save (envs 5) data_folder "/api/v3/klines?symbol=BTCUSDT&interval=1h&limit=24" "klines_BTCUSDT_1h" ]

/-- All HTTP requests a batch issues, in order. -/
def batchRequests (envs : ℕ → FetchEnv) (data_folder : String) : List (String × String) :=
  ((fetch_all_data envs data_folder).map FetchOutcome.requests).flatten

/-- Final observable state of `run_continuous_fetch`: the value of
`fetch_count`, the wall-clock instants at which the batches started, the
durations passed to `time.sleep`, and the clock when the loop exits. -/
structure LoopResult where
  fetchCount : ℕ
  batchStarts : List ℚ
  sleeps : List ℚ
  finalTime : ℚ
deriving DecidableEq

/-- One spin of the `while time.time() < end_time` loop of
`run_continuous_fetch`, with explicit time passing.  `t` is the clock at the
loop test, `batchDur c` the wall-clock time consumed by the `c`-th
`fetch_all_data` call (its requests and the internal `time.sleep(0.1)`
pacing), `c`/`bs`/`ss` the accumulated count, batch-start instants and sleep
durations.  `fuel` bounds the number of iterations so the recursion is
structural; every theorem below instantiates it large enough that it never
runs out. -/
def loopIter (end_time interval : ℚ) (batchDur : ℕ → ℚ) :
    ℕ → ℚ → ℕ → List ℚ → List ℚ → LoopResult
  | 0, t, c, bs, ss => ⟨c, bs.reverse, ss.reverse, t⟩
  | fuel + 1, t, c, bs, ss =>
    if t < end_time then
      let t' := t + batchDur c
      let remaining := end_time - t'
      if remaining ≤ 0 then ⟨c + 1, (t :: bs).reverse, ss.reverse, t'⟩
      else
        let sleep_time := min interval remaining
        if 0 < sleep_time then
          loopIter end_time interval batchDur fuel (t' + sleep_time) (c + 1) (t :: bs)
            (sleep_time :: ss)
        else
          loopIter end_time interval batchDur fuel t' (c + 1) (t :: bs) ss
    else ⟨c, bs.reverse, ss.reverse, t⟩

/-- Embedding of `BinanceDataFetcher.run_continuous_fetch`.  `startTime` is
the value captured by `start_time = time.time()`; `t0 ≥ startTime` is the
clock when the loop condition is first evaluated (the banner `print`s run in
between); batches and sleeps then advance the clock as in `loopIter`. -/
def run_continuous_fetch (runtime_hours save_interval_minutes : ℚ) (batchDur : ℕ → ℚ)
    (startTime t0 : ℚ) (fuel : ℕ) : LoopResult :=
  let runtime_seconds := runtime_hours * 3600
  let interval_seconds := save_interval_minutes * 60
  let end_time := startTime + runtime_seconds
  loopIter end_time interval_seconds batchDur fuel t0 0 [] []

/-- Numeric value of a digit string, most significant first. -/
def digitsToNat (l : List Char) : ℕ :=
  l.foldl (fun a c => 10 * a + (c.toNat - 48)) 0

/-- Values of Python's `float` type as far as the prompt loops can observe
them: finite values (held exactly as rationals), the two infinities, and
NaN. -/
inductive PyFloat where
  | num (q : ℚ) : PyFloat
  | nan : PyFloat
  | inf : PyFloat
  | ninf : PyFloat
deriving DecidableEq

/-- Python's `<=` on floats: NaN compares false with everything (itself
included), the infinities sit at the two ends, finite values compare as
rationals. -/
def pyLe : PyFloat → PyFloat → Bool
  | PyFloat.nan, _ => false
  | _, PyFloat.nan => false
  | PyFloat.ninf, _ => true
  | _, PyFloat.ninf => false
  | PyFloat.num a, PyFloat.num b => decide (a ≤ b)
  | PyFloat.num _, PyFloat.inf => true
  | PyFloat.inf, PyFloat.num _ => false
  | PyFloat.inf, PyFloat.inf => true

/-- Python's `<` on floats, with the same NaN behaviour. -/
def pyLt : PyFloat → PyFloat → Bool
  | PyFloat.nan, _ => false
  | _, PyFloat.nan => false
  | PyFloat.ninf, PyFloat.ninf => false
  | PyFloat.ninf, _ => true
  | _, PyFloat.ninf => false
  | PyFloat.num a, PyFloat.num b => decide (a < b)
  | PyFloat.num _, PyFloat.inf => true
  | PyFloat.inf, _ => false

/-- Model of Python's `float(...)` constructor: an optional sign followed by
either a NaN or infinity spelling (case-insensitive, as `float` accepts) or
a decimal literal — an integer part and an optional fractional part with at
least one digit overall.  `none` is the `ValueError` case.  Idealisations:
decimal values are kept exactly instead of being rounded to binary floats,
and the forms with exponents, surrounding whitespace or underscores are not
modelled — every such input parses to an ordinary finite number, which the
positivity gate below treats exactly like any other `num` value, so neither
idealisation affects what the prompt loop can return. -/
def parseFloat (s : String) : Option PyFloat :=
  let signed : Bool × List Char :=
    match s.data with
    | '-' :: rest => (true, rest)
    | '+' :: rest => (false, rest)
    | l => (false, l)
  let neg := signed.1
  let body := signed.2
  let lower := body.map Char.toLower
  if lower == "nan".data then some PyFloat.nan
  else if lower == "inf".data || lower == "infinity".data then
    some (if neg then PyFloat.ninf else PyFloat.inf)
  else
    let intPart := body.takeWhile Char.isDigit
    let rest := body.dropWhile Char.isDigit
    match rest with
    | [] =>
        if intPart.isEmpty then none
        else some (PyFloat.num ((if neg then (-1 : ℚ) else 1) * digitsToNat intPart))
    | '.' :: frac =>
        if frac.all Char.isDigit && (!intPart.isEmpty || !frac.isEmpty) then
          some (PyFloat.num ((if neg then (-1 : ℚ) else 1) *
            ((digitsToNat intPart : ℚ) + (digitsToNat frac : ℚ) / (10 : ℚ) ^ frac.length)))
        else none
    | _ => none

/-- One `while True:` prompt loop of `get_user_input` in
`start_binance_data_fetcher.py`, consuming console lines: a line that fails
`float(...)` (the `except ValueError` arm) or whose value satisfies the
`<= 0` test is re-prompted in place; the first value failing that test —
note NaN fails every comparison, so it is accepted — is returned together
with the unread lines.  `none` models the console closing (`input()`
raising end-of-file, which the program does not catch). -/
def readPositive : List String → Option (PyFloat × List String)
  | [] => none
  | x :: rest =>
    match parseFloat x with
    | none => readPositive rest
    | some v => if pyLe v (PyFloat.num 0) then readPositive rest else some (v, rest)

/-- Embedding of `get_user_input`: the runtime-hours prompt loop followed by
the save-interval prompt loop over one stream of console lines. -/
def get_user_input (inputs : List String) : Option (PyFloat × PyFloat × List String) :=
  match readPositive inputs with
  | none => none
  | some (runtime_hours, rest) =>
    match readPositive rest with
    | none => none
    | some (save_interval_minutes, rest2) =>
        some (runtime_hours, save_interval_minutes, rest2)

/-- How one run of `start_binance_data_fetcher.py` can end, per its
top-level control flow: the import guard fails; `main()` returns normally;
`KeyboardInterrupt` reaches `main`'s handler; some other `Exception` reaches
the final handler. -/
inductive StarterOutcome where
  | importFailure : StarterOutcome
  | normal : StarterOutcome
  | keyboardInterrupt : StarterOutcome
  | uncaughtException : StarterOutcome
deriving DecidableEq

/-- Process exit code of the starter for each outcome: `sys.exit(1)` in
the import guard, implicit 0 on normal return, `sys.exit(0)` in the
`KeyboardInterrupt` handler, `sys.exit(1)` in the `except Exception`
handler. -/
def starterExitCode : StarterOutcome → ℕ
  | StarterOutcome.importFailure => 1
  | StarterOutcome.normal => 0
  | StarterOutcome.keyboardInterrupt => 0
  | StarterOutcome.uncaughtException => 1

/-- Configuration held by a `BinanceDataFetcher` instance after
`__init__`. -/
structure FetcherConfig where
  base_url : String
  data_folder : String
  runtime_hours : ℚ
  save_interval_minutes : ℚ

/-- File-system side effects of `__init__`. -/
inductive FsEffect where
  | makedirs (path : String) : FsEffect
deriving DecidableEq

/-- Model of Python's `str.endswith`: the second string's characters are a
suffix of the first string's characters. -/
def strEndsWith (s suf : String) : Bool := List.isSuffixOf suf.data s.data

/-- Embedding of `BinanceDataFetcher.__init__(runtime_hours,
save_interval_minutes)`: the output directory is chosen from `os.getcwd()`
alone, then created with `os.makedirs(..., exist_ok=True)`. -/
def fetcher_init (runtime_hours save_interval_minutes : ℚ) (cwd : String) :
    FetcherConfig × List FsEffect :=
  let data_folder :=
    if strEndsWith cwd "binance_data_fetcher" then "../binance_data" else "binance_data"
  (⟨"https://api.binance.com", data_folder, runtime_hours, save_interval_minutes⟩,
    [FsEffect.makedirs data_folder])

/-- Boolean shape check for the timestamp part of a filename: fourteen
decimal digits with an underscore after the date. -/
def tsFormatOk : List Char → Bool
  | [y1, y2, y3, y4, m1, m2, d1, d2, u, h1, h2, n1, n2, s1, s2] =>
      y1.isDigit && y2.isDigit && y3.isDigit && y4.isDigit &&
      m1.isDigit && m2.isDigit && d1.isDigit && d2.isDigit && (u == '_') &&
      h1.isDigit && h2.isDigit && n1.isDigit && n2.isDigit &&
      s1.isDigit && s2.isDigit
  | _ => false

/-- Agreement of two instants at the resolution `strftime("%Y%m%d_%H%M%S")`
renders (everything except microseconds). -/
def sameSecond (a b : DateTime) : Prop :=
  a.year = b.year ∧ a.month = b.month ∧ a.day = b.day ∧
    a.hour = b.hour ∧ a.minute = b.minute ∧ a.second = b.second

/-- An instant used by the concrete scenarios below. -/
def dtA : DateTime := ⟨2025, 1, 2, 3, 4, 5, 0⟩

/-- The same second as `dtA`, half a million microseconds later. -/
def dtB : DateTime := ⟨2025, 1, 2, 3, 4, 5, 500000⟩

/-- A world where every request fails (for instance times out). -/
def envNetFail : FetchEnv := ⟨fun _ => NetResult.netFault "timeout", fun _ => none, dtA⟩

/-- A world where every request and every write succeeds, observed at `dtA`. -/
def envOkA : FetchEnv := ⟨fun _ => NetResult.ok Json.null, fun _ => none, dtA⟩

/-- The same healthy world observed at `dtB`, later in the same second. -/
def envOkB : FetchEnv := ⟨fun _ => NetResult.ok Json.null, fun _ => none, dtB⟩

theorem loopIter_exit (e i : ℚ) (bd : ℕ → ℚ) (t : ℚ) (c : ℕ) (bs ss : List ℚ)
    (fuel : ℕ) (h : ¬ t < e) :
    loopIter e i bd fuel t c bs ss = ⟨c, bs.reverse, ss.reverse, t⟩ := by
  cases fuel with
  | zero => rfl
  | succ n => simp only [loopIter]; rw [if_neg h]

theorem loopIter_stop (e i : ℚ) (bd : ℕ → ℚ) (fuel : ℕ) (t : ℚ) (c : ℕ)
    (bs ss : List ℚ) (h : t < e) (h2 : e - (t + bd c) ≤ 0) :
    loopIter e i bd (fuel + 1) t c bs ss =
      ⟨c + 1, (t :: bs).reverse, ss.reverse, t + bd c⟩ := by
  simp only [loopIter]
  rw [if_pos h, if_pos h2]

theorem loopIter_sleep (e i : ℚ) (bd : ℕ → ℚ) (fuel : ℕ) (t : ℚ) (c : ℕ)
    (bs ss : List ℚ) (h : t < e) (h2 : 0 < e - (t + bd c))
    (h3 : 0 < min i (e - (t + bd c))) :
    loopIter e i bd (fuel + 1) t c bs ss =
      loopIter e i bd fuel (t + bd c + min i (e - (t + bd c))) (c + 1) (t :: bs)
        (min i (e - (t + bd c)) :: ss) := by
  simp only [loopIter]
  rw [if_pos h, if_neg (not_le.mpr h2), if_pos h3]

/-- C1 (counterexample): with a configured duration of 0 hours (interval 60
minutes, instantaneous batches, loop entered at the start instant), the
scheduler performs zero batches, not the one batch the claim asserts: the
guard `time.time() < end_time` is already false on first evaluation. -/
theorem c1_zero_duration_counterexample :
    (run_continuous_fetch 0 60 (fun _ => 0) 0 0 5).fetchCount = 0 ∧
      ¬ (run_continuous_fetch 0 60 (fun _ => 0) 0 0 5).fetchCount = 1 := by
  have h : run_continuous_fetch 0 60 (fun _ => 0) 0 0 5 = ⟨0, [], [], 0⟩ := by
    simp only [run_continuous_fetch]
    rw [loopIter_exit _ _ _ _ _ _ _ _ (by norm_num)]
    simp
  rw [h]
  exact ⟨rfl, by simp⟩

/-- C1 (amended): for duration 0 and any interval, `run_continuous_fetch`
performs zero batches (`fetch_all_data` is never called) and terminates
without sleeping — the `while time.time() < end_time` guard is false at once
because `end_time` equals `start_time`. -/
theorem c1_zero_duration_no_batches (si : ℚ) (bd : ℕ → ℚ) (startTime t0 : ℚ)
    (fuel : ℕ) (h : startTime ≤ t0) :
    run_continuous_fetch 0 si bd startTime t0 fuel = ⟨0, [], [], t0⟩ := by
  simp only [run_continuous_fetch]
  rw [show startTime + (0 : ℚ) * 3600 = startTime by ring]
  rw [loopIter_exit _ _ _ _ _ _ _ _ (not_lt.mpr h)]
  simp

/-- C1 witness: the amended statement at duration 0, interval 60 minutes,
instantaneous batches, start instant 0. -/
theorem c1_zero_duration_no_batches_witness :
    run_continuous_fetch 0 60 (fun _ => 0) 0 0 3 = ⟨0, [], [], 0⟩ :=
  c1_zero_duration_no_batches 60 (fun _ => 0) 0 0 3 (le_refl 0)

/-- C2: with duration 150 minutes (2.5 hours), interval 60 minutes and
instantaneous batches, the scheduler performs exactly 3 batches, at t = 0 s,
3600 s (60 min) and 7200 s (120 min), sleeps 3600 s, 3600 s and then only
the remaining 1800 s, and exits at t = 9000 s, which is at (not past) the
150-minute deadline. -/
theorem c2_three_batches :
    run_continuous_fetch (5/2) 60 (fun _ => 0) 0 0 10 =
      ⟨3, [0, 3600, 7200], [3600, 3600, 1800], 9000⟩ ∧
    (run_continuous_fetch (5/2) 60 (fun _ => 0) 0 0 10).finalTime ≤ 0 + (5/2) * 3600 := by
  have h0 : run_continuous_fetch (5/2) 60 (fun _ => 0) 0 0 10 =
      loopIter 9000 3600 (fun _ => 0) 10 0 0 [] [] := by
    simp only [run_continuous_fetch]
    norm_num
  have s1 : loopIter 9000 3600 (fun _ => 0) 10 0 0 [] [] =
      loopIter 9000 3600 (fun _ => 0) 9 3600 1 [0] [3600] := by
    have h := loopIter_sleep 9000 3600 (fun _ => 0) 9 0 0 [] []
      (by norm_num) (by norm_num) (by norm_num [min_def])
    norm_num [min_def] at h
    exact h
  have s2 : loopIter 9000 3600 (fun _ => 0) 9 3600 1 [0] [3600] =
      loopIter 9000 3600 (fun _ => 0) 8 7200 2 [3600, 0] [3600, 3600] := by
    have h := loopIter_sleep 9000 3600 (fun _ => 0) 8 3600 1 [0] [3600]
      (by norm_num) (by norm_num) (by norm_num [min_def])
    norm_num [min_def] at h
    exact h
  have s3 : loopIter 9000 3600 (fun _ => 0) 8 7200 2 [3600, 0] [3600, 3600] =
      loopIter 9000 3600 (fun _ => 0) 7 9000 3 [7200, 3600, 0] [1800, 3600, 3600] := by
    have h := loopIter_sleep 9000 3600 (fun _ => 0) 7 7200 2 [3600, 0] [3600, 3600]
      (by norm_num) (by norm_num) (by norm_num [min_def])
    norm_num [min_def] at h
    exact h
  have s4 : loopIter 9000 3600 (fun _ => 0) 7 9000 3 [7200, 3600, 0] [1800, 3600, 3600] =
      ⟨3, [0, 3600, 7200], [3600, 3600, 1800], 9000⟩ := by
    rw [loopIter_exit _ _ _ _ _ _ _ _ (by norm_num)]
    simp
  have hall : run_continuous_fetch (5/2) 60 (fun _ => 0) 0 0 10 =
      ⟨3, [0, 3600, 7200], [3600, 3600, 1800], 9000⟩ :=
    (((h0.trans s1).trans s2).trans s3).trans s4
  refine ⟨hall, ?_⟩
  rw [hall]
  norm_num

/-- C3: on an iteration of the scheduler loop that runs a batch (clock `t`,
batch number `c`), once the batch is done the remaining budget is
`e - (t + batchDur c)`; if it is exhausted (≤ 0) the loop stops at once and
records no further sleep, and if it is positive (with a positive configured
interval, as every caller of `run_continuous_fetch` guarantees) the loop
sleeps exactly `min interval remaining` before the next test. -/
theorem c3_sleep_min_or_stop (e i : ℚ) (bd : ℕ → ℚ) (fuel : ℕ) (t : ℚ) (c : ℕ)
    (bs ss : List ℚ) (hrun : t < e) :
    (e - (t + bd c) ≤ 0 →
      loopIter e i bd (fuel + 1) t c bs ss =
        ⟨c + 1, (t :: bs).reverse, ss.reverse, t + bd c⟩) ∧
    (0 < e - (t + bd c) → 0 < i →
      loopIter e i bd (fuel + 1) t c bs ss =
        loopIter e i bd fuel (t + bd c + min i (e - (t + bd c))) (c + 1) (t :: bs)
          (min i (e - (t + bd c)) :: ss)) :=
  ⟨fun h2 => loopIter_stop e i bd fuel t c bs ss hrun h2,
   fun h2 hi => loopIter_sleep e i bd fuel t c bs ss hrun h2 (lt_min hi h2)⟩

/-- C3 witness: deadline 10 s, interval 3 s, batches lasting 1 s, at the
first iteration: the batch ends at t = 1, 9 s remain, and the loop sleeps
`min 3 9` seconds. -/
theorem c3_sleep_min_or_stop_witness :
    loopIter 10 3 (fun _ => 1) 1 0 0 [] [] =
      loopIter 10 3 (fun _ => 1) 0 (0 + 1 + min 3 (10 - (0 + 1))) 1 [0]
        [min 3 (10 - (0 + 1))] :=
  (c3_sleep_min_or_stop 10 3 (fun _ => 1) 0 0 0 [] [] (by norm_num)).2
    (by norm_num) (by norm_num)

theorem digitChar10_isDigit (n : ℕ) : (digitChar10 n).isDigit = true := by
  unfold digitChar10
  have h : n % 10 < 10 := Nat.mod_lt _ (by norm_num)
  set m := n % 10 with hm
  interval_cases m <;> rfl

theorem digitChar10_inj (a b : ℕ) (h : digitChar10 a = digitChar10 b) :
    a % 10 = b % 10 := by
  unfold digitChar10 at h
  have ha : a % 10 < 10 := Nat.mod_lt _ (by norm_num)
  have hb : b % 10 < 10 := Nat.mod_lt _ (by norm_num)
  set x := a % 10 with hx
  set y := b % 10 with hy
  interval_cases x <;> interval_cases y <;> simp_all

theorem tsFormatOk_fmtTimestamp (dt : DateTime) :
    tsFormatOk (fmtTimestamp dt) = true := by
  simp [fmtTimestamp, pad4, pad2, tsFormatOk, digitChar10_isDigit]

theorem fmtTimestamp_length (dt : DateTime) : (fmtTimestamp dt).length = 15 := by
  simp [fmtTimestamp, pad4, pad2]

/-- C4: a request fault (connectivity, timeout or non-2xx status) and a
persistence fault are each caught inside `fetch_and_save`, logged with the
`✗` marker, and turned into a `None` result with no file written; and
`fetch_all_data` always runs all six queries, the `i`-th depending only on
the world `envs i` at its own call, so one query's fault never aborts the
batch or disturbs the remaining queries. -/
theorem c4_fault_is_isolated :
    (∀ env folder ep pre msg, env.http ep = NetResult.netFault msg →
      (fetch_and_save env folder ep pre).result = none ∧
      (fetch_and_save env folder ep pre).writes = [] ∧
      "✗ Error fetching " ++ ep ++ ": " ++ msg ∈ (fetch_and_save env folder ep pre).logs) ∧
    (∀ env folder ep pre payload msg, env.http ep = NetResult.ok payload →
      env.writeErr (folder ++ "/" ++ snapshotFilename pre env.now) = some msg →
      (fetch_and_save env folder ep pre).result = none ∧
      (fetch_and_save env folder ep pre).writes = [] ∧
      "✗ Error saving data: " ++ msg ∈ (fetch_and_save env folder ep pre).logs) ∧
    (∀ envs folder, fetch_all_data envs folder =
      [ fetch_and_save (envs 0) folder "/api/v3/exchangeInfo" "exchange_info",
        fetch_and_save (envs 1) folder "/api/v3/ticker/24hr" "ticker_24hr_all",
        fetch_and_save (envs 2) folder "/api/v3/ticker/price" "ticker_price_all",
        fetch_and_save (envs 3) folder "/api/v3/depth?symbol=BTCUSDT&limit=100" "orderbook_BTCUSDT",
        fetch_and_save (envs 4) folder "/api/v3/trades?symbol=BTCUSDT&limit=100" "trades_BTCUSDT",
        fetch_and_save (envs 5) folder "/api/v3/klines?symbol=BTCUSDT&interval=1h&limit=24" "klines_BTCUSDT_1h" ]) := by
  refine ⟨?_, ?_, fun envs folder => rfl⟩
  · intro env folder ep pre msg h
    simp [fetch_and_save, h]
  · intro env folder ep pre payload msg hok hw
    simp [fetch_and_save, hok, hw]

/-- C4 witness: in a world where every request times out, the first batch
query returns `None`, writes nothing, and logs the fault. -/
theorem c4_fault_is_isolated_witness :
    (fetch_and_save envNetFail "binance_data" "/api/v3/exchangeInfo" "exchange_info").result = none ∧
    (fetch_and_save envNetFail "binance_data" "/api/v3/exchangeInfo" "exchange_info").writes = [] ∧
    "✗ Error fetching " ++ "/api/v3/exchangeInfo" ++ ": " ++ "timeout" ∈
      (fetch_and_save envNetFail "binance_data" "/api/v3/exchangeInfo" "exchange_info").logs :=
  c4_fault_is_isolated.1 envNetFail "binance_data" "/api/v3/exchangeInfo" "exchange_info"
    "timeout" rfl

/-- C5: a `fetch_and_save` call whose request and write both succeed writes
exactly one file, at `{data_folder}/{prefix}_{timestamp}.json` with the
timestamp fourteen digits split by an underscore, stores the parsed payload
there (re-serialised by `json.dump`), and returns that payload. -/
theorem c5_success_single_snapshot (env : FetchEnv) (folder ep pre : String)
    (payload : Json) (hok : env.http ep = NetResult.ok payload)
    (hw : env.writeErr (folder ++ "/" ++ snapshotFilename pre env.now) = none) :
    (fetch_and_save env folder ep pre).result = some payload ∧
    (fetch_and_save env folder ep pre).writes =
      [(folder ++ "/" ++ (pre ++ "_" ++ timestampStr env.now ++ ".json"), payload)] ∧
    tsFormatOk (timestampStr env.now).data = true := by
  have hw' : env.writeErr (folder ++ "/" ++ (pre ++ "_" ++ timestampStr env.now ++ ".json")) =
      none := by simpa [snapshotFilename] using hw
  refine ⟨?_, ?_, tsFormatOk_fmtTimestamp env.now⟩ <;>
    simp [fetch_and_save, hok, hw', snapshotFilename]

/-- C5 witness: a healthy world at the instant `dtA`; the single write lands
in `binance_data/exchange_info_20250102_030405.json` and carries the
payload. -/
theorem c5_success_single_snapshot_witness :
    (fetch_and_save envOkA "binance_data" "/api/v3/exchangeInfo" "exchange_info").result =
      some Json.null ∧
    (fetch_and_save envOkA "binance_data" "/api/v3/exchangeInfo" "exchange_info").writes =
      [("binance_data" ++ "/" ++
          ("exchange_info" ++ "_" ++ timestampStr dtA ++ ".json"), Json.null)] ∧
    tsFormatOk (timestampStr dtA).data = true :=
  c5_success_single_snapshot envOkA "binance_data" "/api/v3/exchangeInfo" "exchange_info"
    Json.null rfl rfl

theorem string_data_append (a b : String) : (a ++ b).data = a.data ++ b.data := rfl

theorem string_eq_of_data {a b : String} (h : a.data = b.data) : a = b :=
  congrArg String.mk h

theorem snapshotFilename_data (p : String) (dt : DateTime) :
    (snapshotFilename p dt).data =
      p.data ++ '_' :: (fmtTimestamp dt ++ ['.', 'j', 's', 'o', 'n']) := by
  have h1 : ("_" : String).data = ['_'] := rfl
  have h2 : (".json" : String).data = ['.', 'j', 's', 'o', 'n'] := rfl
  have h3 : (timestampStr dt).data = fmtTimestamp dt := rfl
  simp [snapshotFilename, string_data_append, h1, h2, h3, List.append_assoc]

theorem fmtTimestamp_sameSecond (t1 t2 : DateTime) (h1 : ValidDT t1) (h2 : ValidDT t2)
    (h : fmtTimestamp t1 = fmtTimestamp t2) : sameSecond t1 t2 := by
  unfold ValidDT at h1 h2
  obtain ⟨hy1, -, hmo1, -, hd1, hh1, hn1, hs1, -⟩ := h1
  obtain ⟨hy2, -, hmo2, -, hd2, hh2, hn2, hs2, -⟩ := h2
  simp [fmtTimestamp, pad4, pad2] at h
  obtain ⟨e1, e2, e3, e4, e5, e6, e7, e8, e9, e10, e11, e12, e13, e14⟩ := h
  have g1 := digitChar10_inj _ _ e1
  have g2 := digitChar10_inj _ _ e2
  have g3 := digitChar10_inj _ _ e3
  have g4 := digitChar10_inj _ _ e4
  have g5 := digitChar10_inj _ _ e5
  have g6 := digitChar10_inj _ _ e6
  have g7 := digitChar10_inj _ _ e7
  have g8 := digitChar10_inj _ _ e8
  have g9 := digitChar10_inj _ _ e9
  have g10 := digitChar10_inj _ _ e10
  have g11 := digitChar10_inj _ _ e11
  have g12 := digitChar10_inj _ _ e12
  have g13 := digitChar10_inj _ _ e13
  have g14 := digitChar10_inj _ _ e14
  unfold sameSecond
  refine ⟨?_, ?_, ?_, ?_, ?_, ?_⟩ <;> omega

/-- C6 (counterexample): two distinct fetches of the same query completing
within the same wall-clock second (here at `dtA` and half a second later at
`dtB`) generate the same filename, so the second write targets the file the
first one created — the claimed unconditional distinctness fails. -/
theorem c6_same_second_collision :
    envOkA.now ≠ envOkB.now ∧
    (fetch_and_save envOkA "binance_data" "/api/v3/exchangeInfo" "exchange_info").writes =
      (fetch_and_save envOkB "binance_data" "/api/v3/exchangeInfo" "exchange_info").writes := by
  refine ⟨?_, rfl⟩
  intro h
  have : (0 : ℕ) = 500000 := congrArg DateTime.micro h
  simp at this

/-- C6 (amended): filenames generated in the same run are distinct whenever
the two fetches differ in prefix or in capture time at second resolution;
only a same-prefix fetch within the same second reuses (and hence
overwrites) a filename. -/
theorem c6_distinct_names (p1 p2 : String) (t1 t2 : DateTime)
    (h1 : ValidDT t1) (h2 : ValidDT t2) (hne : p1 ≠ p2 ∨ ¬ sameSecond t1 t2) :
    snapshotFilename p1 t1 ≠ snapshotFilename p2 t2 := by
  intro heq
  have hd := congrArg String.data heq
  rw [snapshotFilename_data, snapshotFilename_data] at hd
  have hlen : ('_' :: (fmtTimestamp t1 ++ ['.', 'j', 's', 'o', 'n'])).length =
      ('_' :: (fmtTimestamp t2 ++ ['.', 'j', 's', 'o', 'n'])).length := by
    simp [fmtTimestamp_length]
  obtain ⟨hp, ht⟩ := List.append_inj' hd hlen
  have ht2 : fmtTimestamp t1 ++ ['.', 'j', 's', 'o', 'n'] =
      fmtTimestamp t2 ++ ['.', 'j', 's', 'o', 'n'] := by
    simpa using ht
  have hfmt : fmtTimestamp t1 = fmtTimestamp t2 := (List.append_inj' ht2 rfl).1
  rcases hne with h | h
  · exact h (string_eq_of_data hp)
  · exact h (fmtTimestamp_sameSecond t1 t2 h1 h2 hfmt)

/-- C6 witness: fetches one second apart (`dtA` and the next second) with the
same prefix get distinct filenames. -/
theorem c6_distinct_names_witness :
    snapshotFilename "exchange_info" ⟨2025, 1, 2, 3, 4, 5, 0⟩ ≠
      snapshotFilename "exchange_info" ⟨2025, 1, 2, 3, 4, 6, 0⟩ :=
  c6_distinct_names "exchange_info" "exchange_info" ⟨2025, 1, 2, 3, 4, 5, 0⟩
    ⟨2025, 1, 2, 3, 4, 6, 0⟩ (by norm_num [ValidDT]) (by norm_num [ValidDT])
    (Or.inr (by simp [sameSecond]))

theorem readPositive_skip_invalid (x : String) (rest : List String)
    (h : parseFloat x = none) : readPositive (x :: rest) = readPositive rest := by
  simp [readPositive, h]

theorem readPositive_skip_nonpos (x : String) (rest : List String) (v : PyFloat)
    (h : parseFloat x = some v) (hv : pyLe v (PyFloat.num 0) = true) :
    readPositive (x :: rest) = readPositive rest := by
  simp [readPositive, h, hv]

theorem readPositive_accept (x : String) (rest : List String) (v : PyFloat)
    (h : parseFloat x = some v) (hv : pyLe v (PyFloat.num 0) = false) :
    readPositive (x :: rest) = some (v, rest) := by
  simp [readPositive, h, hv]

theorem readPositive_not_le_zero (inputs : List String) :
    ∀ v rest, readPositive inputs = some (v, rest) → pyLe v (PyFloat.num 0) = false := by
  induction inputs with
  | nil => intro v rest h; simp [readPositive] at h
  | cons x xs ih =>
    intro v rest h
    simp only [readPositive] at h
    split at h
    · exact ih v rest h
    · rename_i w hw
      split at h
      · exact ih v rest h
      · rename_i hle
        simp at h hle
        obtain ⟨h1, -⟩ := h
        subst h1
        exact hle

theorem get_user_input_nan_sixty :
    get_user_input ["nan", "60"] = some (PyFloat.nan, PyFloat.num 60, []) := by
  have pnan : parseFloat "nan" = some PyFloat.nan := rfl
  have p60 : parseFloat "60" = some (PyFloat.num ((1 : ℚ) * ((60 : ℕ) : ℚ))) := rfl
  have p60' : parseFloat "60" = some (PyFloat.num 60) := by rw [p60]; norm_num
  have n1 : readPositive ["nan", "60"] = some (PyFloat.nan, ["60"]) :=
    readPositive_accept _ _ _ pnan rfl
  have n2 : readPositive ["60"] = some (PyFloat.num 60, []) :=
    readPositive_accept _ _ _ p60'
      (by simp only [pyLe]; exact decide_eq_false (by norm_num))
  simp only [get_user_input, n1, n2]

/-- C7 (counterexample): the console line "nan" parses with `float(...)`,
and since NaN compares false with everything the `<= 0` re-prompt test does
not fire: `get_user_input` accepts it and returns NaN for the runtime —
a value that is not strictly greater than 0, falsifying the claim that a
non-positive input is always re-prompted and that only values greater than
0 are returned.  (Downstream, `display_summary` then crashes on `int(nan)`.) -/
theorem c7_nan_counterexample :
    get_user_input ["nan", "60"] = some (PyFloat.nan, PyFloat.num 60, []) ∧
    pyLt (PyFloat.num 0) PyFloat.nan = false ∧
    pyLe PyFloat.nan (PyFloat.num 0) = false :=
  ⟨get_user_input_nan_sixty, rfl, rfl⟩

/-- C7 (amended): `get_user_input` only ever returns values `v` for which
Python's `v <= 0` is false — every strictly positive number, but also NaN,
the one kind of accepted value that is not positive; a plain non-numeric or
non-positive entry is still re-prompted in place, and on the console stream
"-5", "abc", "0", "2.5", "2.5" the function accepts 2.5 for both prompts. -/
theorem c7_prompt_validation :
    (∀ inputs r s rest, get_user_input inputs = some (r, s, rest) →
      pyLe r (PyFloat.num 0) = false ∧ pyLe s (PyFloat.num 0) = false) ∧
    get_user_input ["-5", "abc", "0", "2.5", "2.5"] =
      some (PyFloat.num (5/2), PyFloat.num (5/2), []) ∧
    get_user_input ["nan", "60"] = some (PyFloat.nan, PyFloat.num 60, []) := by
  refine ⟨?_, ?_, get_user_input_nan_sixty⟩
  · intro inputs r s rest h
    unfold get_user_input at h
    rcases hr1 : readPositive inputs with - | ⟨v1, rest1⟩
    · rw [hr1] at h; simp at h
    · rw [hr1] at h
      rcases hr2 : readPositive rest1 with - | ⟨v2, rest2⟩
      · simp [hr2] at h
      · simp [hr2] at h
        obtain ⟨h1, h2, -⟩ := h
        subst h1; subst h2
        exact ⟨readPositive_not_le_zero inputs _ _ hr1,
          readPositive_not_le_zero rest1 _ _ hr2⟩
  · have pm5 : parseFloat "-5" = some (PyFloat.num ((-1 : ℚ) * ((5 : ℕ) : ℚ))) := rfl
    have pm5' : parseFloat "-5" = some (PyFloat.num (-5)) := by rw [pm5]; norm_num
    have pabc : parseFloat "abc" = none := rfl
    have p0 : parseFloat "0" = some (PyFloat.num ((1 : ℚ) * ((0 : ℕ) : ℚ))) := rfl
    have p0' : parseFloat "0" = some (PyFloat.num 0) := by rw [p0]; norm_num
    have p25 : parseFloat "2.5" = some (PyFloat.num
        ((1 : ℚ) * (((2 : ℕ) : ℚ) + ((5 : ℕ) : ℚ) / (10 : ℚ) ^ (1 : ℕ)))) := rfl
    have p25' : parseFloat "2.5" = some (PyFloat.num (5/2)) := by rw [p25]; norm_num
    have r1 : readPositive ["-5", "abc", "0", "2.5", "2.5"] =
        readPositive ["abc", "0", "2.5", "2.5"] :=
      readPositive_skip_nonpos _ _ _ pm5'
        (by simp only [pyLe]; exact decide_eq_true (by norm_num))
    have r2 : readPositive ["abc", "0", "2.5", "2.5"] = readPositive ["0", "2.5", "2.5"] :=
      readPositive_skip_invalid _ _ pabc
    have r3 : readPositive ["0", "2.5", "2.5"] = readPositive ["2.5", "2.5"] :=
      readPositive_skip_nonpos _ _ _ p0'
        (by simp only [pyLe]; exact decide_eq_true (by norm_num))
    have r4 : readPositive ["2.5", "2.5"] = some (PyFloat.num (5/2), ["2.5"]) :=
      readPositive_accept _ _ _ p25'
        (by simp only [pyLe]; exact decide_eq_false (by norm_num))
    have r5 : readPositive ["2.5"] = some (PyFloat.num (5/2), []) :=
      readPositive_accept _ _ _ p25'
        (by simp only [pyLe]; exact decide_eq_false (by norm_num))
    have hfirst : readPositive ["-5", "abc", "0", "2.5", "2.5"] =
        some (PyFloat.num (5/2), ["2.5"]) :=
      ((r1.trans r2).trans r3).trans r4
    simp only [get_user_input, hfirst, r5]

/-- C7 witness: both values returned in the decimal scenario fail the
`<= 0` test, i.e. are accepted as positive. -/
theorem c7_prompt_validation_witness :
    pyLe (PyFloat.num (5/2)) (PyFloat.num 0) = false ∧
    pyLe (PyFloat.num (5/2)) (PyFloat.num 0) = false :=
  c7_prompt_validation.1 ["-5", "abc", "0", "2.5", "2.5"] (PyFloat.num (5/2))
    (PyFloat.num (5/2)) [] c7_prompt_validation.2.1

theorem fetch_and_save_requests (env : FetchEnv) (folder ep pre : String) :
    (fetch_and_save env folder ep pre).requests = [("GET", base_url ++ ep)] := by
  cases h : env.http ep with
  | netFault msg => simp [fetch_and_save, h]
  | ok payload =>
    cases hw : env.writeErr (folder ++ "/" ++ snapshotFilename pre env.now) with
    | none => simp [fetch_and_save, h, hw]
    | some m => simp [fetch_and_save, h, hw]

/-- C8: every batch issues exactly these six GET requests, in this order —
exchange metadata, 24-hour tickers for all symbols, prices for all symbols,
BTCUSDT order-book depth, BTCUSDT recent trades, and 24 hourly BTCUSDT
candles — whatever the network or file system do; no other request (and in
particular no non-GET operation) is issued. -/
theorem c8_six_get_requests (envs : ℕ → FetchEnv) (folder : String) :
    batchRequests envs folder =
      [ ("GET", "https://api.binance.com/api/v3/exchangeInfo"),
        ("GET", "https://api.binance.com/api/v3/ticker/24hr"),
        ("GET", "https://api.binance.com/api/v3/ticker/price"),
        ("GET", "https://api.binance.com/api/v3/depth?symbol=BTCUSDT&limit=100"),
        ("GET", "https://api.binance.com/api/v3/trades?symbol=BTCUSDT&limit=100"),
        ("GET", "https://api.binance.com/api/v3/klines?symbol=BTCUSDT&interval=1h&limit=24") ] := by
  simp only [batchRequests, fetch_all_data, List.map, fetch_and_save_requests,
    List.flatten]
  rfl

/-- C9: the starter's exit code is 0 when `main()` completes normally and
when a `KeyboardInterrupt` reaches its handler, and 1 when the import guard
fails or any other exception reaches the top-level handler. -/
theorem c9_exit_codes :
    starterExitCode StarterOutcome.normal = 0 ∧
    starterExitCode StarterOutcome.keyboardInterrupt = 0 ∧
    starterExitCode StarterOutcome.importFailure = 1 ∧
    starterExitCode StarterOutcome.uncaughtException = 1 :=
  ⟨rfl, rfl, rfl, rfl⟩

/-- C10: the constructor picks the output directory from the current working
directory alone — `../binance_data` exactly when the cwd ends with
`binance_data_fetcher`, `binance_data` otherwise — creates it, and no
constructor parameter influences that choice. -/
theorem c10_folder_from_cwd (rh si : ℚ) (cwd : String) :
    (strEndsWith cwd "binance_data_fetcher" = true →
      (fetcher_init rh si cwd).1.data_folder = "../binance_data") ∧
    (strEndsWith cwd "binance_data_fetcher" = false →
      (fetcher_init rh si cwd).1.data_folder = "binance_data") ∧
    (fetcher_init rh si cwd).2 =
      [FsEffect.makedirs (fetcher_init rh si cwd).1.data_folder] ∧
    (∀ rh' si', (fetcher_init rh' si' cwd).1.data_folder =
      (fetcher_init rh si cwd).1.data_folder) := by
  refine ⟨?_, ?_, by simp [fetcher_init], fun _ _ => rfl⟩ <;>
    intro h <;> simp [fetcher_init, h]

/-- C10 witness: started from inside `binance_data_fetcher` the files go to
`../binance_data`, started from anywhere else they go to `binance_data`,
whatever the configured duration and interval are. -/
theorem c10_folder_from_cwd_witness :
    (fetcher_init 1 60 "/home/u/binance_data_fetcher").1.data_folder = "../binance_data" ∧
    (fetcher_init (5/2) 15 "/home/u").1.data_folder = "binance_data" :=
  ⟨(c10_folder_from_cwd 1 60 "/home/u/binance_data_fetcher").1 (by decide),
   (c10_folder_from_cwd (5/2) 15 "/home/u").2.1 (by decide)⟩
